import Mathlib

/-!
Shallow embedding of the library-loading utilities in
`source/utils/CarlaLibUtils.hpp` (the POSIX build, which is the
configuration that defines the box64 emulation path; the Windows branch
of every `#ifdef` does not contain the emulated path at all).

Pointers (`void*`, `lib_t`, function pointers) are modelled as
`Option Nat`: `none` is the C null pointer, `some v` is a non-null
pointer whose identity is the value `v`.  The process-wide mutable
state touched by the file — the two static function-pointer globals and
the `BOX64_LD_LIBRARY_PATH` environment variable — is a `GState` record
threaded explicitly.  External calls (`dlopen`, `dlsym`, `dlclose`,
`dlerror`, and invocations of the three bridge entry points) are a
record `Sys` of pure functions; each returns `ExtRes α`, where `.exn`
models the call raising a C++ exception (the fault the `try`/`catch`
blocks of the source exist to contain).  Each operation also returns
the list of observable events it performed, in order.
-/

/-- Result of one external call: a returned value, or a raised fault
(a C++ exception escaping the call). -/
inductive ExtRes (α : Type) : Type where
  | ok (v : α)
  | exn
  deriving DecidableEq, Repr

/-- Outcome of running one operation of the interface:
a normal return carrying the C return value, a process abort
(`abort()`), a `std::terminate` caused by a fault hitting a
`noexcept` boundary with no `catch`, or undefined behaviour
(calling a null function pointer). -/
inductive Outcome (α : Type) : Type where
  | ret (v : α)
  | aborted
  | terminated
  | undef
  deriving DecidableEq, Repr

/-- Observable events, in program order: environment writes, native
loader calls, invocations of the bridge entry points, and diagnostics. -/
inductive Event : Type where
  | setenvE (name value : String) (overwrite : Bool)
  | dlopenE (path : String) (flags : Nat)
  | dlsymE (handle : Nat) (name : String)
  | dlcloseE (handle : Nat)
  | dlerrorE
  | callInitE (ptr : Nat)
  | callLoadLibE (ptr : Nat) (path : String)
  | callRunFuncE (ptr : Nat) (handle : Nat) (name : String)
  | printErr (msg : String)
  | printOut (msg : String)
  deriving DecidableEq, Repr

/-- The process-wide mutable state written by this file: the two
static function-pointer globals (`LoadLibraryWithEmulator`,
`RunFuncWithEmulator`, both initialised to `NULL`) and the value of the
`BOX64_LD_LIBRARY_PATH` environment variable. -/
structure GState : Type where
  loadLibraryWithEmulator : Option Nat
  runFuncWithEmulator : Option Nat
  box64LdLibraryPath : Option String
  deriving DecidableEq, Repr

/-- The external world: results of the native loader primitives and of
invoking bridge function pointers.  A record of pure functions, so the
same `Sys` models a stable environment across repeated calls. -/
structure Sys : Type where
  dlopen : String → Nat → ExtRes (Option Nat)
  dlsym : Nat → String → ExtRes (Option Nat)
  dlclose : Nat → ExtRes Int
  dlerror : ExtRes (Option String)
  callInit : Nat → ExtRes Int
  callLoadLib : Nat → String → ExtRes (Option Nat)
  callRunFunc : Nat → Nat → String → ExtRes (Option Nat)

/-- dlfcn flag `RTLD_LOCAL` (Linux value). -/
def RTLD_LOCAL : Nat := 0

/-- dlfcn flag `RTLD_NOW` (Linux value): immediate binding. -/
def RTLD_NOW : Nat := 2

/-- dlfcn flag `RTLD_GLOBAL` (Linux value): global symbol visibility. -/
def RTLD_GLOBAL : Nat := 256

/-- The fixed on-disk path of the bridge library (`box64_lib_path`). -/
def box64_lib_path : String := "/home/javier/Documents/Github/box64/build/libbox64.so"

/-- The fixed runtime search-path value (`box64_ld_library_path`). -/
def box64_ld_library_path : String := "/home/javier/Documents/Github/box64/x64lib"

/-- Result of `InitBox64`: normal return, `abort()`, or a C++
exception escaping the (non-`noexcept`) function into its caller. -/
inductive InitResult : Type where
  | done
  | aborted
  | faulted
  deriving DecidableEq, Repr

/-- Embedding of `InitBox64` (CarlaLibUtils.hpp lines 41-77).  Sets
`BOX64_LD_LIBRARY_PATH`, `dlopen`s the bridge with
`RTLD_GLOBAL | RTLD_NOW`, resolves and invokes `"Initialize"`, then
resolves `"LoadX64Library"` and `"RunX64Function"` into the two
globals, checking each step and aborting with a diagnostic on stderr
when it fails.  Returns the outcome, the updated state, and the event
trace. -/
def InitBox64 (sys : Sys) (st : GState) : InitResult × GState × List Event :=
  let st1 : GState := { st with box64LdLibraryPath := some box64_ld_library_path }
  let tr1 : List Event :=
    [Event.setenvE "BOX64_LD_LIBRARY_PATH" box64_ld_library_path true,
     Event.dlopenE box64_lib_path (RTLD_GLOBAL ||| RTLD_NOW)]
  match sys.dlopen box64_lib_path (RTLD_GLOBAL ||| RTLD_NOW) with
  | ExtRes.exn => (InitResult.faulted, st1, tr1)
  | ExtRes.ok none =>
      (InitResult.aborted, st1, tr1 ++ [Event.printErr "Error loading box64 library"])
  | ExtRes.ok (some h) =>
    let tr2 := tr1 ++ [Event.dlsymE h "Initialize"]
    match sys.dlsym h "Initialize" with
    | ExtRes.exn => (InitResult.faulted, st1, tr2)
    | ExtRes.ok none =>
        (InitResult.aborted, st1,
         tr2 ++ [Event.printErr "Error getting symbol \"Initialize\" from box64 library"])
    | ExtRes.ok (some ip) =>
      let tr3 := tr2 ++ [Event.callInitE ip]
      match sys.callInit ip with
      | ExtRes.exn => (InitResult.faulted, st1, tr3)
      | ExtRes.ok status =>
        if status ≠ 0 then
          (InitResult.aborted, st1, tr3 ++ [Event.printErr "Error initializing box64 library"])
        else
          let tr4 := tr3 ++ [Event.dlsymE h "LoadX64Library"]
          match sys.dlsym h "LoadX64Library" with
          | ExtRes.exn => (InitResult.faulted, st1, tr4)
          | ExtRes.ok loadp =>
            let st2 : GState := { st1 with loadLibraryWithEmulator := loadp }
            match loadp with
            | none =>
                (InitResult.aborted, st2,
                 tr4 ++ [Event.printErr "Error getting symbol \"LoadX64Library\" from box64 library"])
            | some _ =>
              let tr5 := tr4 ++ [Event.dlsymE h "RunX64Function"]
              match sys.dlsym h "RunX64Function" with
              | ExtRes.exn => (InitResult.faulted, st2, tr5)
              | ExtRes.ok runp =>
                let st3 : GState := { st2 with runFuncWithEmulator := runp }
                match runp with
                | none =>
                    (InitResult.aborted, st3,
                     tr5 ++ [Event.printErr "Error getting symbol \"RunX64Function\" from box64 library"])
                | some _ =>
                    (InitResult.done, st3, tr5 ++ [Event.printOut "box64 library initialized."])

/-- Modelled from the spec: `CARLA_SAFE_ASSERT_RETURN` (defined in
CarlaUtils.hpp, which is not under src/) returns the given fallback
value, without invoking any underlying call, when its condition is
false.  The conditions used in this file test that a C string pointer
is non-null and points at a non-empty string; this predicate is that
condition for a `const char*` modelled as `Option String`. -/
def validStr : Option String → Bool
  | none => false
  | some s => s ≠ ""

/-- The `dlopen` mode computed by the native path of `lib_open`:
`RTLD_NOW | (global ? RTLD_GLOBAL : RTLD_LOCAL)`. -/
def dlopenFlags (global : Bool) : Nat :=
  RTLD_NOW ||| (if global then RTLD_GLOBAL else RTLD_LOCAL)

/-- Embedding of `lib_open` (CarlaLibUtils.hpp lines 83-103), POSIX
branch.  Validates the filename, then inside `try`: if `use_libbox64`
runs `InitBox64` and calls the `LoadLibraryWithEmulator` global with
the filename, else calls `dlopen(filename, RTLD_NOW|RTLD_GLOBAL/LOCAL)`.
The surrounding catch (`CARLA_SAFE_EXCEPTION_RETURN`, modelled from the
spec: any fault is converted to the fallback `nullptr`) turns a fault
into a normal null return.  An `abort()` raised inside `InitBox64`
terminates the process; calling a null function pointer is undefined
behaviour. -/
def lib_open (sys : Sys) (st : GState) (filename : Option String)
    (global use_libbox64 : Bool) : Outcome (Option Nat) × GState × List Event :=
  if ¬ validStr filename then (Outcome.ret none, st, [])
  else
    match filename with
    | none => (Outcome.ret none, st, [])
    | some f =>
      if use_libbox64 then
        match InitBox64 sys st with
        | (InitResult.aborted, st', tr) => (Outcome.aborted, st', tr)
        | (InitResult.faulted, st', tr) => (Outcome.ret none, st', tr)
        | (InitResult.done, st', tr) =>
          match st'.loadLibraryWithEmulator with
          | none => (Outcome.undef, st', tr)
          | some lp =>
            match sys.callLoadLib lp f with
            | ExtRes.exn => (Outcome.ret none, st', tr ++ [Event.callLoadLibE lp f])
            | ExtRes.ok h => (Outcome.ret h, st', tr ++ [Event.callLoadLibE lp f])
      else
        match sys.dlopen f (dlopenFlags global) with
        | ExtRes.exn => (Outcome.ret none, st, [Event.dlopenE f (dlopenFlags global)])
        | ExtRes.ok h => (Outcome.ret h, st, [Event.dlopenE f (dlopenFlags global)])

/-- Embedding of `lib_close` (CarlaLibUtils.hpp lines 106-121), POSIX
branch.  Validates the handle, then inside `try` returns
`dlclose(lib) == 0`; a fault is converted to `false` by the catch. -/
def lib_close (sys : Sys) (st : GState) (lib : Option Nat) :
    Outcome Bool × GState × List Event :=
  match lib with
  | none => (Outcome.ret false, st, [])
  | some h =>
    match sys.dlclose h with
    | ExtRes.exn => (Outcome.ret false, st, [Event.dlcloseE h])
    | ExtRes.ok rc => (Outcome.ret (decide (rc = 0)), st, [Event.dlcloseE h])

/-- Embedding of `lib_symbol` (CarlaLibUtils.hpp lines 124-154), POSIX
branch.  Validates handle and symbol name, then inside `try`: if
`use_libbox64`, calls the `RunFuncWithEmulator` global directly (no
bootstrap, no null check — calling it while still null is undefined
behaviour), else calls `dlsym(lib, symbol)`.  A fault raised by the
call is converted to `nullptr` by the catch. -/
def lib_symbol (sys : Sys) (st : GState) (lib : Option Nat)
    (symbol : Option String) (use_libbox64 : Bool) :
    Outcome (Option Nat) × GState × List Event :=
  match lib with
  | none => (Outcome.ret none, st, [])
  | some h =>
    if ¬ validStr symbol then (Outcome.ret none, st, [])
    else
      match symbol with
      | none => (Outcome.ret none, st, [])
      | some s =>
        if use_libbox64 then
          match st.runFuncWithEmulator with
          | none => (Outcome.undef, st, [])
          | some rp =>
            match sys.callRunFunc rp h s with
            | ExtRes.exn => (Outcome.ret none, st, [Event.callRunFuncE rp h s])
            | ExtRes.ok v => (Outcome.ret v, st, [Event.callRunFuncE rp h s])
        else
          match sys.dlsym h s with
          | ExtRes.exn => (Outcome.ret none, st, [Event.dlsymE h s])
          | ExtRes.ok v => (Outcome.ret v, st, [Event.dlsymE h s])

/-- Embedding of `lib_error` (CarlaLibUtils.hpp lines 156-184), POSIX
branch.  Validates the filename, then returns `dlerror()` directly:
this branch has no `try`/`catch`, and the function is declared
`noexcept`, so a fault raised by the underlying call reaches the
`noexcept` boundary and calls `std::terminate` instead of being
converted to a null return.  The `use_libbox64` parameter is never
read by the body. -/
def lib_error (sys : Sys) (st : GState) (filename : Option String)
    (use_libbox64 : Bool) : Outcome (Option String) × GState × List Event :=
  if ¬ validStr filename then (Outcome.ret none, st, [])
  else
    match sys.dlerror with
    | ExtRes.exn => (Outcome.terminated, st, [Event.dlerrorE])
    | ExtRes.ok s => (Outcome.ret s, st, [Event.dlerrorE])

/-- The state at process start: both static function pointers are
`NULL` and the bridge environment variable is unset. -/
def initialState : GState :=
  { loadLibraryWithEmulator := none, runFuncWithEmulator := none, box64LdLibraryPath := none }

/-- The BridgeState invariant of the spec: the two function-pointer
fields are both null or both non-null. -/
def bothOrNone (st : GState) : Prop :=
  (st.loadLibraryWithEmulator = none ∧ st.runFuncWithEmulator = none) ∨
  (st.loadLibraryWithEmulator ≠ none ∧ st.runFuncWithEmulator ≠ none)

instance (st : GState) : Decidable (bothOrNone st) := by
  unfold bothOrNone; infer_instance

/-- A concrete external world in which every call succeeds: the bridge
library opens as handle 1, every symbol resolves to pointer 2, the
initializer returns 0, and the bridge entry points return handle 5 and
pointer 6. -/
def sysA : Sys where
  dlopen := fun _ _ => ExtRes.ok (some 1)
  dlsym := fun _ _ => ExtRes.ok (some 2)
  dlclose := fun _ => ExtRes.ok 0
  dlerror := ExtRes.ok (some "dlerror message")
  callInit := fun _ => ExtRes.ok 0
  callLoadLib := fun _ _ => ExtRes.ok (some 5)
  callRunFunc := fun _ _ _ => ExtRes.ok (some 6)

/-- A concrete external world in which every call raises a fault. -/
def sysF : Sys where
  dlopen := fun _ _ => ExtRes.exn
  dlsym := fun _ _ => ExtRes.exn
  dlclose := fun _ => ExtRes.exn
  dlerror := ExtRes.exn
  callInit := fun _ => ExtRes.exn
  callLoadLib := fun _ _ => ExtRes.exn
  callRunFunc := fun _ _ _ => ExtRes.exn

/-- A state in which BridgeState is already populated, as after a
successful earlier bootstrap. -/
def stFull : GState :=
  { loadLibraryWithEmulator := some 7, runFuncWithEmulator := some 8,
    box64LdLibraryPath := some box64_ld_library_path }

/-!  Helper lemmas shared by the claim theorems. -/

/-- Complete case analysis of `InitBox64`: a run either returns
normally — with the bridge opened, the full seven-event trace, both
globals stored non-null and no diagnostic — or aborts after printing a
diagnostic, or lets a C++ exception escape, which requires one of the
external calls to have faulted. -/
theorem initBox64_spec (sys : Sys) (st : GState) :
    ((InitBox64 sys st).1 = InitResult.done ∧
       (∃ h ip, sys.dlopen box64_lib_path (RTLD_GLOBAL ||| RTLD_NOW) = ExtRes.ok (some h) ∧
         (InitBox64 sys st).2.2 =
           [Event.setenvE "BOX64_LD_LIBRARY_PATH" box64_ld_library_path true,
            Event.dlopenE box64_lib_path (RTLD_GLOBAL ||| RTLD_NOW),
            Event.dlsymE h "Initialize",
            Event.callInitE ip,
            Event.dlsymE h "LoadX64Library",
            Event.dlsymE h "RunX64Function",
            Event.printOut "box64 library initialized."]) ∧
       (∃ lp rp, (InitBox64 sys st).2.1.loadLibraryWithEmulator = some lp ∧
         (InitBox64 sys st).2.1.runFuncWithEmulator = some rp) ∧
       (∀ m, Event.printErr m ∉ (InitBox64 sys st).2.2)) ∨
    ((InitBox64 sys st).1 = InitResult.aborted ∧
       (∃ m, Event.printErr m ∈ (InitBox64 sys st).2.2)) ∨
    ((InitBox64 sys st).1 = InitResult.faulted ∧
       (sys.dlopen box64_lib_path (RTLD_GLOBAL ||| RTLD_NOW) = ExtRes.exn ∨
        (∃ h, sys.dlsym h "Initialize" = ExtRes.exn ∨
              sys.dlsym h "LoadX64Library" = ExtRes.exn ∨
              sys.dlsym h "RunX64Function" = ExtRes.exn) ∨
        (∃ p, sys.callInit p = ExtRes.exn))) := by
  unfold InitBox64
  cases h1 : sys.dlopen box64_lib_path (RTLD_GLOBAL ||| RTLD_NOW) with
  | exn => exact Or.inr (Or.inr ⟨by simp, Or.inl rfl⟩)
  | ok v =>
    cases v with
    | none => exact Or.inr (Or.inl ⟨by simp, by simp⟩)
    | some h =>
      cases h2 : sys.dlsym h "Initialize" with
      | exn => exact Or.inr (Or.inr ⟨by simp [h2], Or.inr (Or.inl ⟨h, Or.inl h2⟩)⟩)
      | ok v2 =>
        cases v2 with
        | none => exact Or.inr (Or.inl ⟨by simp [h2], by simp [h2]⟩)
        | some ip =>
          cases h3 : sys.callInit ip with
          | exn => exact Or.inr (Or.inr ⟨by simp [h2, h3], Or.inr (Or.inr ⟨ip, h3⟩)⟩)
          | ok status =>
            by_cases hs : status = 0
            · cases h4 : sys.dlsym h "LoadX64Library" with
              | exn =>
                  exact Or.inr (Or.inr ⟨by simp [h2, h3, hs, h4],
                    Or.inr (Or.inl ⟨h, Or.inr (Or.inl h4)⟩)⟩)
              | ok v4 =>
                cases v4 with
                | none => exact Or.inr (Or.inl ⟨by simp [h2, h3, hs, h4], by simp [h2, h3, hs, h4]⟩)
                | some lp =>
                  cases h5 : sys.dlsym h "RunX64Function" with
                  | exn =>
                      exact Or.inr (Or.inr ⟨by simp [h2, h3, hs, h4, h5],
                        Or.inr (Or.inl ⟨h, Or.inr (Or.inr h5)⟩)⟩)
                  | ok v5 =>
                    cases v5 with
                    | none =>
                        exact Or.inr (Or.inl ⟨by simp [h2, h3, hs, h4, h5],
                          by simp [h2, h3, hs, h4, h5]⟩)
                    | some rp =>
                        refine Or.inl ⟨by simp [h2, h3, hs, h4, h5],
                          ⟨h, ip, rfl, by simp [h2, h3, hs, h4, h5]⟩,
                          ⟨lp, rp, by simp [h2, h3, hs, h4, h5], by simp [h2, h3, hs, h4, h5]⟩,
                          by simp [h2, h3, hs, h4, h5]⟩
            · exact Or.inr (Or.inl ⟨by simp [h2, h3, hs], by simp [h2, h3, hs]⟩)

/-- Effects every run of `InitBox64` performs before anything can
fail: the environment variable is overwritten with the fixed value,
and the first two events are that write followed by the `dlopen` of
the bridge with `RTLD_GLOBAL | RTLD_NOW`. -/
theorem initBox64_always (sys : Sys) (st : GState) :
    (InitBox64 sys st).2.1.box64LdLibraryPath = some box64_ld_library_path ∧
    (InitBox64 sys st).2.2.take 2 =
      [Event.setenvE "BOX64_LD_LIBRARY_PATH" box64_ld_library_path true,
       Event.dlopenE box64_lib_path (RTLD_GLOBAL ||| RTLD_NOW)] := by
  unfold InitBox64
  cases h1 : sys.dlopen box64_lib_path (RTLD_GLOBAL ||| RTLD_NOW) with
  | exn => simp
  | ok v =>
    cases v with
    | none => simp
    | some h =>
      cases h2 : sys.dlsym h "Initialize" with
      | exn => simp [h2]
      | ok v2 =>
        cases v2 with
        | none => simp [h2]
        | some ip =>
          cases h3 : sys.callInit ip with
          | exn => simp [h2, h3]
          | ok status =>
            by_cases hs : status = 0
            · cases h4 : sys.dlsym h "LoadX64Library" with
              | exn => simp [h2, h3, hs, h4]
              | ok v4 =>
                cases v4 with
                | none => simp [h2, h3, hs, h4]
                | some lp =>
                  cases h5 : sys.dlsym h "RunX64Function" with
                  | exn => simp [h2, h3, hs, h4, h5]
                  | ok v5 => cases v5 <;> simp [h2, h3, hs, h4, h5]
            · simp [h2, h3, hs]

/-!  Claim theorems. -/

/-- C1: every failure in the `InitBox64` sequence — bridge library
failing to load, `"Initialize"` absent, initializer returning non-zero,
or either of `"LoadX64Library"` / `"RunX64Function"` absent — prints a
diagnostic and aborts the process; `InitBox64` never returns normally
after such a failure, so no error value reaches its caller.  (The
hypotheses say the external C calls do not raise C++ exceptions, which
a C function cannot.) -/
theorem initBox64_fail_fast (sys : Sys) (st : GState)
    (h1 : sys.dlopen box64_lib_path (RTLD_GLOBAL ||| RTLD_NOW) ≠ ExtRes.exn)
    (h2 : ∀ h, sys.dlsym h "Initialize" ≠ ExtRes.exn)
    (h3 : ∀ h, sys.dlsym h "LoadX64Library" ≠ ExtRes.exn)
    (h4 : ∀ h, sys.dlsym h "RunX64Function" ≠ ExtRes.exn)
    (h5 : ∀ p, sys.callInit p ≠ ExtRes.exn) :
    ((InitBox64 sys st).1 = InitResult.done ∧
       ∀ m, Event.printErr m ∉ (InitBox64 sys st).2.2) ∨
    ((InitBox64 sys st).1 = InitResult.aborted ∧
       ∃ m, Event.printErr m ∈ (InitBox64 sys st).2.2) := by
  rcases initBox64_spec sys st with ⟨hd, _, _, hne⟩ | ⟨ha, hm⟩ | ⟨_, hfault⟩
  · exact Or.inl ⟨hd, hne⟩
  · exact Or.inr ⟨ha, hm⟩
  · rcases hfault with hx | ⟨h, hx | hx | hx⟩ | ⟨p, hx⟩
    · exact absurd hx h1
    · exact absurd hx (h2 h)
    · exact absurd hx (h3 h)
    · exact absurd hx (h4 h)
    · exact absurd hx (h5 p)

/-- Witness for C1 at the concrete world `sysA`: the run bootstraps
successfully, so the left disjunct holds. -/
theorem initBox64_fail_fast_witness :
    (InitBox64 sysA initialState).1 = InitResult.done ∨
    (InitBox64 sysA initialState).1 = InitResult.aborted := by
  rcases initBox64_fail_fast sysA initialState (by decide) (fun _ => by simp [sysA])
      (fun _ => by simp [sysA]) (fun _ => by simp [sysA]) (fun _ => by simp [sysA]) with ⟨hd, _⟩ | ⟨ha, _⟩
  · exact Or.inl hd
  · exact Or.inr ha

/-- C2: the two function-pointer globals start both null, are both
non-null whenever `InitBox64` returns normally, and every interface
operation that returns normally preserves the both-null-or-both-set
invariant of BridgeState. -/
theorem bridge_state_invariant (sys : Sys) (st : GState)
    (h1 : sys.dlopen box64_lib_path (RTLD_GLOBAL ||| RTLD_NOW) ≠ ExtRes.exn)
    (h2 : ∀ h, sys.dlsym h "Initialize" ≠ ExtRes.exn)
    (h3 : ∀ h, sys.dlsym h "LoadX64Library" ≠ ExtRes.exn)
    (h4 : ∀ h, sys.dlsym h "RunX64Function" ≠ ExtRes.exn)
    (h5 : ∀ p, sys.callInit p ≠ ExtRes.exn) :
    (initialState.loadLibraryWithEmulator = none ∧
       initialState.runFuncWithEmulator = none) ∧
    ((InitBox64 sys st).1 = InitResult.done →
       (InitBox64 sys st).2.1.loadLibraryWithEmulator ≠ none ∧
       (InitBox64 sys st).2.1.runFuncWithEmulator ≠ none) ∧
    (∀ fn g b v, bothOrNone st → (lib_open sys st fn g b).1 = Outcome.ret v →
       bothOrNone (lib_open sys st fn g b).2.1) ∧
    (∀ lib, bothOrNone st → bothOrNone (lib_close sys st lib).2.1) ∧
    (∀ lib sn b, bothOrNone st → bothOrNone (lib_symbol sys st lib sn b).2.1) ∧
    (∀ fn b, bothOrNone st → bothOrNone (lib_error sys st fn b).2.1) := by
  have hdone : (InitBox64 sys st).1 = InitResult.done →
      (InitBox64 sys st).2.1.loadLibraryWithEmulator ≠ none ∧
      (InitBox64 sys st).2.1.runFuncWithEmulator ≠ none := by
    intro hd
    rcases initBox64_spec sys st with ⟨_, _, ⟨lp, rp, hlp, hrp⟩, _⟩ | ⟨ha, _⟩ | ⟨hf, _⟩
    · rw [hlp, hrp]; exact ⟨by simp, by simp⟩
    · rw [hd] at ha; exact absurd ha (by simp)
    · rw [hd] at hf; exact absurd hf (by simp)
  have hnofault : (InitBox64 sys st).1 ≠ InitResult.faulted := by
    rcases initBox64_spec sys st with ⟨hd, _⟩ | ⟨ha, _⟩ | ⟨hf, hfault⟩
    · rw [hd]; simp
    · rw [ha]; simp
    · rcases hfault with hx | ⟨h, hx | hx | hx⟩ | ⟨p, hx⟩
      · exact absurd hx h1
      · exact absurd hx (h2 h)
      · exact absurd hx (h3 h)
      · exact absurd hx (h4 h)
      · exact absurd hx (h5 p)
  refine ⟨⟨rfl, rfl⟩, hdone, ?_, ?_, ?_, ?_⟩
  · intro fn g b v hst hret
    rcases fn with _ | f
    · simpa [lib_open] using hst
    · by_cases hf : f = ""
      · simpa [lib_open, validStr, hf] using hst
      · cases b with
        | false =>
          cases ho : sys.dlopen f (dlopenFlags g) with
          | exn => simpa [lib_open, validStr, hf, ho] using hst
          | ok h => simpa [lib_open, validStr, hf, ho] using hst
        | true =>
          rcases hI : InitBox64 sys st with ⟨r, st', tr⟩
          cases r with
          | aborted => simp [lib_open, validStr, hf, hI] at hret
          | faulted => rw [hI] at hnofault; simp at hnofault
          | done =>
            have hfields := hdone (by rw [hI])
            rw [hI] at hfields
            rcases hlp : st'.loadLibraryWithEmulator with _ | lp
            · exact absurd hlp hfields.1
            · have hbo : bothOrNone st' := Or.inr ⟨hfields.1, hfields.2⟩
              cases hc : sys.callLoadLib lp f with
              | exn => simpa [lib_open, validStr, hf, hI, hlp, hc] using hbo
              | ok hres => simpa [lib_open, validStr, hf, hI, hlp, hc] using hbo
  · intro lib hst
    rcases lib with _ | h
    · simpa [lib_close] using hst
    · cases hc : sys.dlclose h with
      | exn => simpa [lib_close, hc] using hst
      | ok rc => simpa [lib_close, hc] using hst
  · intro lib sn b hst
    rcases lib with _ | h
    · simpa [lib_symbol] using hst
    · rcases sn with _ | s
      · simpa [lib_symbol] using hst
      · by_cases hs : s = ""
        · simpa [lib_symbol, validStr, hs] using hst
        · cases b with
          | false =>
            cases hd : sys.dlsym h s with
            | exn => simpa [lib_symbol, validStr, hs, hd] using hst
            | ok v => simpa [lib_symbol, validStr, hs, hd] using hst
          | true =>
            rcases hr : st.runFuncWithEmulator with _ | rp
            · simpa [lib_symbol, validStr, hs, hr] using hst
            · cases hc : sys.callRunFunc rp h s with
              | exn => simpa [lib_symbol, validStr, hs, hr, hc] using hst
              | ok v => simpa [lib_symbol, validStr, hs, hr, hc] using hst
  · intro fn b hst
    rcases fn with _ | f
    · simpa [lib_error] using hst
    · by_cases hf : f = ""
      · simpa [lib_error, validStr, hf] using hst
      · cases he : sys.dlerror with
        | exn => simpa [lib_error, validStr, hf, he] using hst
        | ok s => simpa [lib_error, validStr, hf, he] using hst

/-- C2 witness at a concrete input: after an emulated open from the
start state in the all-succeeding world, BridgeState satisfies the
invariant. -/
theorem bridge_state_invariant_witness :
    bothOrNone (lib_open sysA initialState (some "plugin.so") false true).2.1 :=
  (bridge_state_invariant sysA initialState (by decide) (fun _ => by simp [sysA])
      (fun _ => by simp [sysA]) (fun _ => by simp [sysA]) (fun _ => by simp [sysA])).2.2.1
    (some "plugin.so") false true (some 5) (Or.inl ⟨rfl, rfl⟩) (by decide)

/-- C3 counterexample: with BridgeState already fully populated
(`stFull`), a further emulated `lib_open` still re-runs the bootstrap —
the trace contains the `dlopen` of the bridge library (and the
environment write), so there is no single-run guard. -/
theorem lib_open_no_single_run_guard :
    stFull.loadLibraryWithEmulator = some 7 ∧
    stFull.runFuncWithEmulator = some 8 ∧
    Event.dlopenE box64_lib_path (RTLD_GLOBAL ||| RTLD_NOW) ∈
      (lib_open sysA stFull (some "plugin.so") false true).2.2 ∧
    Event.setenvE "BOX64_LD_LIBRARY_PATH" box64_ld_library_path true ∈
      (lib_open sysA stFull (some "plugin.so") false true).2.2 := by
  refine ⟨rfl, rfl, ?_, ?_⟩ <;> decide

/-- C3 amended: an emulated `lib_open` with a valid filename runs the
Bootstrapper unconditionally — its trace extends the full `InitBox64`
trace — and, when the bootstrap returns normally, delegates to the
stored `LoadLibraryWithEmulator` entry point with the given path. -/
theorem lib_open_emulated_always_bootstraps (sys : Sys) (st : GState)
    (f : String) (hf : f ≠ "") (g : Bool) :
    (∃ rest, (lib_open sys st (some f) g true).2.2 = (InitBox64 sys st).2.2 ++ rest) ∧
    ((InitBox64 sys st).1 = InitResult.done →
       ∃ lp, (InitBox64 sys st).2.1.loadLibraryWithEmulator = some lp ∧
         (lib_open sys st (some f) g true).2.2 =
           (InitBox64 sys st).2.2 ++ [Event.callLoadLibE lp f] ∧
         (lib_open sys st (some f) g true).1 =
           (match sys.callLoadLib lp f with
            | ExtRes.ok v => Outcome.ret v
            | ExtRes.exn => Outcome.ret none)) := by
  rcases hI : InitBox64 sys st with ⟨r, st', tr⟩
  cases r with
  | aborted =>
    refine ⟨⟨[], by simp [lib_open, validStr, hf, hI]⟩, ?_⟩
    intro hd; simp at hd
  | faulted =>
    refine ⟨⟨[], by simp [lib_open, validStr, hf, hI]⟩, ?_⟩
    intro hd; simp at hd
  | done =>
    have hfields : (InitBox64 sys st).2.1.loadLibraryWithEmulator ≠ none := by
      rcases initBox64_spec sys st with ⟨_, _, ⟨lp, rp, hlp, hrp⟩, _⟩ | ⟨ha, _⟩ | ⟨hfl, _⟩
      · rw [hlp]; simp
      · rw [hI] at ha; simp at ha
      · rw [hI] at hfl; simp at hfl
    rw [hI] at hfields
    rcases hlp : st'.loadLibraryWithEmulator with _ | lp
    · exact absurd hlp hfields
    · cases hc : sys.callLoadLib lp f with
      | exn =>
        exact ⟨⟨[Event.callLoadLibE lp f], by simp [lib_open, validStr, hf, hI, hlp, hc]⟩,
          fun _ => ⟨lp, rfl, by simp [lib_open, validStr, hf, hI, hlp, hc],
            by simp [lib_open, validStr, hf, hI, hlp, hc]⟩⟩
      | ok v =>
        exact ⟨⟨[Event.callLoadLibE lp f], by simp [lib_open, validStr, hf, hI, hlp, hc]⟩,
          fun _ => ⟨lp, rfl, by simp [lib_open, validStr, hf, hI, hlp, hc],
            by simp [lib_open, validStr, hf, hI, hlp, hc]⟩⟩

/-- C3 amended witness at a concrete input: the emulated open's trace
extends the bootstrap trace. -/
theorem lib_open_emulated_always_bootstraps_witness :
    ∃ rest, (lib_open sysA initialState (some "plugin.so") false true).2.2 =
      (InitBox64 sysA initialState).2.2 ++ rest :=
  (lib_open_emulated_always_bootstraps sysA initialState "plugin.so" (by decide) false).1

/-- C4: null or empty inputs are rejected before any delegation —
`lib_open` and `lib_symbol` return null, `lib_close` returns false,
each with no external call performed (empty event trace) and the state
untouched. -/
theorem input_validation_precedes_delegation (sys : Sys) (st : GState) :
    ∀ (g b : Bool),
    (lib_open sys st none g b = (Outcome.ret none, st, [])) ∧
    (lib_open sys st (some "") g b = (Outcome.ret none, st, [])) ∧
    (∀ sn, lib_symbol sys st none sn b = (Outcome.ret none, st, [])) ∧
    (∀ h, lib_symbol sys st (some h) none b = (Outcome.ret none, st, [])) ∧
    (∀ h, lib_symbol sys st (some h) (some "") b = (Outcome.ret none, st, [])) ∧
    (lib_close sys st none = (Outcome.ret false, st, [])) := by
  intro g b
  refine ⟨by simp [lib_open, validStr], by simp [lib_open, validStr], ?_, ?_, ?_, rfl⟩
  · intro sn; simp [lib_symbol]
  · intro h; simp [lib_symbol, validStr]
  · intro h; simp [lib_symbol, validStr]

/-- C5 counterexample: `lib_error` does not convert a fault in the
underlying call to a null result.  In the world `sysF` where `dlerror`
raises, `lib_error` — whose POSIX body has no `try`/`catch` — hits the
`noexcept` boundary (`std::terminate`) instead of returning the
documented null. -/
theorem lib_error_fault_not_converted :
    sysF.dlerror = ExtRes.exn ∧
    (lib_error sysF initialState (some "lib_open") false).1 = Outcome.terminated ∧
    (lib_error sysF initialState (some "lib_open") false).1 ≠ Outcome.ret none := by
  refine ⟨rfl, rfl, ?_⟩; decide

/-- C5 amended: `lib_open`, `lib_close` and `lib_symbol` catch any
fault raised inside the underlying call — on the native path, the
emulated path, and (for `lib_open`) inside the bootstrap — and convert
it to the documented null/false result; no fault ever propagates to
the caller.  (`lib_error` is not covered: its POSIX body calls
`dlerror` outside any `try`/`catch`.) -/
theorem safe_calls_convert_faults (sys : Sys) (st : GState)
    (f s : String) (hf : f ≠ "") (hs : s ≠ "") (g : Bool) (hdl rp : Nat) :
    (sys.dlopen f (dlopenFlags g) = ExtRes.exn →
       lib_open sys st (some f) g false = (Outcome.ret none, st, [Event.dlopenE f (dlopenFlags g)])) ∧
    ((InitBox64 sys st).1 = InitResult.faulted →
       (lib_open sys st (some f) g true).1 = Outcome.ret none) ∧
    (sys.dlclose hdl = ExtRes.exn →
       lib_close sys st (some hdl) = (Outcome.ret false, st, [Event.dlcloseE hdl])) ∧
    (sys.dlsym hdl s = ExtRes.exn →
       lib_symbol sys st (some hdl) (some s) false = (Outcome.ret none, st, [Event.dlsymE hdl s])) ∧
    (st.runFuncWithEmulator = some rp → sys.callRunFunc rp hdl s = ExtRes.exn →
       lib_symbol sys st (some hdl) (some s) true =
         (Outcome.ret none, st, [Event.callRunFuncE rp hdl s])) ∧
    ((InitBox64 sys st).1 = InitResult.done →
       ∀ lp, (InitBox64 sys st).2.1.loadLibraryWithEmulator = some lp →
         sys.callLoadLib lp f = ExtRes.exn →
         (lib_open sys st (some f) g true).1 = Outcome.ret none) := by
  refine ⟨?_, ?_, ?_, ?_, ?_, ?_⟩
  · intro hx; simp [lib_open, validStr, hf, hx]
  · intro hx
    rcases hI : InitBox64 sys st with ⟨r, st', tr⟩
    rw [hI] at hx; simp at hx
    subst hx; simp [lib_open, validStr, hf, hI]
  · intro hx; simp [lib_close, hx]
  · intro hx; simp [lib_symbol, validStr, hs, hx]
  · intro hr hx; simp [lib_symbol, validStr, hs, hr, hx]
  · intro hd lp hlp hx
    rcases hI : InitBox64 sys st with ⟨r, st', tr⟩
    rw [hI] at hd hlp; simp at hd hlp
    subst hd
    simp [lib_open, validStr, hf, hI, hlp, hx]

/-- C5 amended witness at a concrete input: in the all-faulting world
`sysF`, a native open converts the fault to a null return. -/
theorem safe_calls_convert_faults_witness :
    lib_open sysF initialState (some "a.so") false false =
      (Outcome.ret none, initialState, [Event.dlopenE "a.so" (dlopenFlags false)]) :=
  (safe_calls_convert_faults sysF initialState "a.so" "sym"
      (by decide) (by decide) false 1 1).1 rfl

/-- C6: every run of `InitBox64` overwrites `BOX64_LD_LIBRARY_PATH`
with the fixed search-path value and its first two events are that
write followed by the `dlopen` of the bridge with
`RTLD_GLOBAL | RTLD_NOW` (global visibility plus immediate binding);
on a normal return the complete trace shows `"Initialize"` resolved
and invoked before `"LoadX64Library"` and `"RunX64Function"` are
resolved and stored. -/
theorem init_sequence_order (sys : Sys) (st : GState) :
    (InitBox64 sys st).2.1.box64LdLibraryPath = some box64_ld_library_path ∧
    (InitBox64 sys st).2.2.take 2 =
      [Event.setenvE "BOX64_LD_LIBRARY_PATH" box64_ld_library_path true,
       Event.dlopenE box64_lib_path (RTLD_GLOBAL ||| RTLD_NOW)] ∧
    ((InitBox64 sys st).1 = InitResult.done →
       ∃ h ip, sys.dlopen box64_lib_path (RTLD_GLOBAL ||| RTLD_NOW) = ExtRes.ok (some h) ∧
         (InitBox64 sys st).2.2 =
           [Event.setenvE "BOX64_LD_LIBRARY_PATH" box64_ld_library_path true,
            Event.dlopenE box64_lib_path (RTLD_GLOBAL ||| RTLD_NOW),
            Event.dlsymE h "Initialize",
            Event.callInitE ip,
            Event.dlsymE h "LoadX64Library",
            Event.dlsymE h "RunX64Function",
            Event.printOut "box64 library initialized."]) := by
  refine ⟨(initBox64_always sys st).1, (initBox64_always sys st).2, ?_⟩
  intro hd
  rcases initBox64_spec sys st with ⟨_, ⟨h, ip, hop, htr⟩, _, _⟩ | ⟨ha, _⟩ | ⟨hfl, _⟩
  · exact ⟨h, ip, hop, htr⟩
  · rw [hd] at ha; exact absurd ha (by simp)
  · rw [hd] at hfl; exact absurd hfl (by simp)

/-- C7: `lib_error` reads only the native loader's error state — its
result is identical for `use_libbox64 = true` and `false`; a null or
empty filename yields null, and otherwise it returns exactly what
`dlerror` reports. -/
theorem lib_error_flag_insensitive (sys : Sys) (st : GState)
    (fn : Option String) (b : Bool) (s : String) (hs : s ≠ "")
    (e : Option String) (he : sys.dlerror = ExtRes.ok e) :
    (∀ b1 b2 : Bool, lib_error sys st fn b1 = lib_error sys st fn b2) ∧
    ((fn = none ∨ fn = some "") → (lib_error sys st fn b).1 = Outcome.ret none) ∧
    (lib_error sys st (some s) b).1 = Outcome.ret e := by
  refine ⟨fun b1 b2 => rfl, ?_, ?_⟩
  · rintro (rfl | rfl) <;> simp [lib_error, validStr]
  · simp [lib_error, validStr, hs, he]

/-- C7 witness at a concrete input: with the native error state of
`sysA`, the reporter returns that state for either flag value. -/
theorem lib_error_flag_insensitive_witness :
    (lib_error sysA initialState (some "open") true).1 =
      Outcome.ret (some "dlerror message") ∧
    (lib_error sysA initialState (some "open") false).1 =
      Outcome.ret (some "dlerror message") :=
  ⟨(lib_error_flag_insensitive sysA initialState (some "open") true "open"
      (by decide) (some "dlerror message") rfl).2.2,
   (lib_error_flag_insensitive sysA initialState (some "open") false "open"
      (by decide) (some "dlerror message") rfl).2.2⟩

/-- C8: running `InitBox64` twice in sequence against the same stable
external world leaves the two BridgeState entry-point fields with the
same values after the second run as after the first, and a second run
after a normal first return again returns normally. -/
theorem initBox64_idempotent (sys : Sys) (st : GState) :
    (InitBox64 sys (InitBox64 sys st).2.1).2.1.loadLibraryWithEmulator =
      (InitBox64 sys st).2.1.loadLibraryWithEmulator ∧
    (InitBox64 sys (InitBox64 sys st).2.1).2.1.runFuncWithEmulator =
      (InitBox64 sys st).2.1.runFuncWithEmulator ∧
    ((InitBox64 sys st).1 = InitResult.done →
      (InitBox64 sys (InitBox64 sys st).2.1).1 = InitResult.done) := by
  cases h1 : sys.dlopen box64_lib_path (RTLD_GLOBAL ||| RTLD_NOW) with
  | exn => simp [InitBox64, h1]
  | ok v =>
    cases v with
    | none => simp [InitBox64, h1]
    | some h =>
      cases h2 : sys.dlsym h "Initialize" with
      | exn => simp [InitBox64, h1, h2]
      | ok v2 =>
        cases v2 with
        | none => simp [InitBox64, h1, h2]
        | some ip =>
          cases h3 : sys.callInit ip with
          | exn => simp [InitBox64, h1, h2, h3]
          | ok status =>
            by_cases hs : status = 0
            · cases h4 : sys.dlsym h "LoadX64Library" with
              | exn => simp [InitBox64, h1, h2, h3, hs, h4]
              | ok v4 =>
                cases v4 with
                | none => simp [InitBox64, h1, h2, h3, hs, h4]
                | some lp =>
                  cases h5 : sys.dlsym h "RunX64Function" with
                  | exn => simp [InitBox64, h1, h2, h3, hs, h4, h5]
                  | ok v5 => cases v5 <;> simp [InitBox64, h1, h2, h3, hs, h4, h5]
            · simp [InitBox64, h1, h2, h3, hs]

/-- C9: the emulated `lib_symbol` performs no bootstrap and no null
check — with a non-null handle and non-empty name it either invokes
the stored `RunFuncWithEmulator` pointer directly (its only event), or,
when no successful bootstrap has set that pointer, calls a null
function pointer: undefined behaviour, so `RunFuncWithEmulator ≠ null`
is a safety precondition. -/
theorem lib_symbol_emulated_needs_bridge (sys : Sys) (st : GState)
    (h : Nat) (s : String) (hs : s ≠ "") :
    (st.runFuncWithEmulator = none →
       lib_symbol sys st (some h) (some s) true = (Outcome.undef, st, [])) ∧
    (∀ rp, st.runFuncWithEmulator = some rp →
       (lib_symbol sys st (some h) (some s) true).2.2 = [Event.callRunFuncE rp h s] ∧
       (lib_symbol sys st (some h) (some s) true).1 =
         (match sys.callRunFunc rp h s with
          | ExtRes.ok v => Outcome.ret v
          | ExtRes.exn => Outcome.ret none)) := by
  constructor
  · intro hr; simp [lib_symbol, validStr, hs, hr]
  · intro rp hr
    cases hc : sys.callRunFunc rp h s with
    | exn => exact ⟨by simp [lib_symbol, validStr, hs, hr, hc], by simp [lib_symbol, validStr, hs, hr, hc]⟩
    | ok v => exact ⟨by simp [lib_symbol, validStr, hs, hr, hc], by simp [lib_symbol, validStr, hs, hr, hc]⟩

/-- C9 witness at a concrete input: before any bootstrap, the emulated
`lib_symbol` dereferences the null `RunFuncWithEmulator` pointer. -/
theorem lib_symbol_emulated_needs_bridge_witness :
    lib_symbol sysA initialState (some 1) (some "doWork") true =
      (Outcome.undef, initialState, []) :=
  (lib_symbol_emulated_needs_bridge sysA initialState 1 "doWork" (by decide)).1 rfl

/-- C10: frame property — native `lib_open`, `lib_close`, `lib_symbol`
on either path, and `lib_error` leave the whole process-wide state
(both BridgeState fields and `BOX64_LD_LIBRARY_PATH`) unchanged; only
the emulated `lib_open` writes it. -/
theorem facade_frame_property (sys : Sys) (st : GState) :
    (∀ fn g, (lib_open sys st fn g false).2.1 = st) ∧
    (∀ lib, (lib_close sys st lib).2.1 = st) ∧
    (∀ lib sn b, (lib_symbol sys st lib sn b).2.1 = st) ∧
    (∀ fn b, (lib_error sys st fn b).2.1 = st) := by
  refine ⟨?_, ?_, ?_, ?_⟩
  · intro fn g
    rcases fn with _ | f
    · rfl
    · by_cases hf : f = ""
      · simp [lib_open, validStr, hf]
      · cases ho : sys.dlopen f (dlopenFlags g) with
        | exn => simp [lib_open, validStr, hf, ho]
        | ok h => simp [lib_open, validStr, hf, ho]
  · intro lib
    rcases lib with _ | h
    · rfl
    · cases hc : sys.dlclose h with
      | exn => simp [lib_close, hc]
      | ok rc => simp [lib_close, hc]
  · intro lib sn b
    rcases lib with _ | h
    · rfl
    · rcases sn with _ | s
      · simp [lib_symbol]
      · by_cases hs : s = ""
        · simp [lib_symbol, validStr, hs]
        · cases b with
          | false =>
            cases hd : sys.dlsym h s with
            | exn => simp [lib_symbol, validStr, hs, hd]
            | ok v => simp [lib_symbol, validStr, hs, hd]
          | true =>
            rcases hr : st.runFuncWithEmulator with _ | rp
            · simp [lib_symbol, validStr, hs, hr]
            · cases hc : sys.callRunFunc rp h s with
              | exn => simp [lib_symbol, validStr, hs, hr, hc]
              | ok v => simp [lib_symbol, validStr, hs, hr, hc]
  · intro fn b
    rcases fn with _ | f
    · rfl
    · by_cases hf : f = ""
      · simp [lib_error, validStr, hf]
      · cases he : sys.dlerror with
        | exn => simp [lib_error, validStr, hf, he]
        | ok e => simp [lib_error, validStr, hf, he]
